import Mathlib

/-!
Shallow embedding of the demand-aware order-optimization pipeline of the
karaage-tencho-kun plugin: the order optimizer (tools/order_optimizer.py),
the demand forecaster (tools/demand_forecast.py) and the inventory manager
(tools/inventory_manager.py).

Machine floats of the Python source are modelled by exact rationals (ℚ).
At every concrete input appearing in the claims the binary-float
computations of the source are exact or round to the same values, so the
rational model agrees with the source there (checked: 10*(35/50)*1.0 = 7.0
and 60/50 > 1.2 is false in binary64, as in ℚ).
-/

namespace Karaage

/-- Python builtin `int()` applied to a finite float: truncation toward zero
(floor for non-negative values, ceiling for negative ones). -/
def pyInt (q : ℚ) : ℤ := if 0 ≤ q then ⌊q⌋ else ⌈q⌉

/-- Python builtin `round()` to the nearest integer: round half to even. -/
def pyRoundInt (q : ℚ) : ℤ :=
  let n := ⌊q⌋
  let f := q - n
  if f < 1/2 then n
  else if 1/2 < f then n + 1
  else if n % 2 = 0 then n else n + 1

/-- Python `round(q, ndigits)`: round half to even at `ndigits` decimal places. -/
def pyRound (ndigits : ℕ) (q : ℚ) : ℚ :=
  (pyRoundInt (q * 10 ^ ndigits) : ℚ) / 10 ^ ndigits

/-- Python float formatting with format spec `.0f` (round half to even, no decimals). -/
def pyFmt0 (q : ℚ) : String := toString (pyRoundInt q)

/-- An inventory row as produced by `OrderOptimizerTool._get_inventory_by_category`
(item dict with `remaining_hours` already computed and rounded). -/
structure InvItemRow where
  item_id : String
  item_name : String
  category : String
  quantity : ℤ
  min_stock_level : ℤ
  reorder_point : ℤ
  remaining_hours : ℚ
  deriving DecidableEq, Repr

/-- One demand-forecast entry, as produced by `DemandForecastTool._predict`. -/
structure Pred where
  item : String
  predicted_demand : ℤ
  base_demand : ℤ
  change_percent : ℚ
  deriving DecidableEq, Repr

/-- A value of the `demand_ratio_map` built in `_calculate_orders`. -/
structure DemandInfo where
  ratio : ℚ
  predicted_demand : ℤ
  base_demand : ℤ
  change_percent : ℚ
  deriving DecidableEq, Repr

/-- The default map value used in `_calculate_orders` for a category with no
matching forecast entry. -/
def defaultDemandInfo : DemandInfo :=
  { ratio := 1, predicted_demand := 0, base_demand := 0, change_percent := 0 }

/-- The map value built from one forecast entry in `_calculate_orders`
(`ratio = predicted / base if base > 0 else 1.0`). -/
def mkDemandInfo (p : Pred) : DemandInfo :=
  { ratio := if 0 < p.base_demand then (p.predicted_demand : ℚ) / (p.base_demand : ℚ) else 1
    predicted_demand := p.predicted_demand
    base_demand := p.base_demand
    change_percent := p.change_percent }

/-- The `demand_ratio_map` dict of `_calculate_orders`, as an association list.
A later entry for the same key shadows an earlier one, as Python dict
assignment overwrites; lookup takes the first (= latest) match. -/
def demandRatioMap (preds : List Pred) : List (String × DemandInfo) :=
  preds.foldl (fun m p => (p.item, mkDemandInfo p) :: m) []

/-- `demand_ratio_map.get(category, default)` in `_calculate_orders`. -/
def lookupInfo (preds : List Pred) (category : String) : DemandInfo :=
  (((demandRatioMap preds).find? (fun e => e.1 == category)).map Prod.snd).getD
    defaultDemandInfo

/-- One per-item recommendation dict appended by `_calculate_orders`. -/
structure Recommendation where
  item_id : String
  item_name : String
  category : String
  current_quantity : ℤ
  reorder_point : ℤ
  adjusted_target : ℤ
  demand_ratio : ℚ
  recommended_order_quantity : ℤ
  remaining_hours_until_expiry : ℚ
  note : String
  deriving DecidableEq, Repr

/-- `adjusted_target = int(item["reorder_point"] * ratio * safety_stock_days)`. -/
def adjustedTarget (info : DemandInfo) (ssd : ℚ) (item : InvItemRow) : ℤ :=
  pyInt ((item.reorder_point : ℚ) * info.ratio * ssd)

/-- `base_order = max(0, adjusted_target - item["quantity"])`. -/
def baseOrder (info : DemandInfo) (ssd : ℚ) (item : InvItemRow) : ℤ :=
  max 0 (adjustedTarget info ssd item - item.quantity)

/-- The per-item body of the loop in `_calculate_orders`: expiry/demand policy
(`//` is Python floor division, hence `Int.fdiv`) and the recommendation dict. -/
def calcItem (category : String) (info : DemandInfo) (ssd : ℚ)
    (item : InvItemRow) : Recommendation :=
  let target := adjustedTarget info ssd item
  let base := baseOrder info ssd item
  let rh := item.remaining_hours
  let r : ℤ × String :=
    if rh < 4 then
      (0, "期限切れ間近のため発注見送り")
    else if rh < 8 then
      (max 0 (Int.fdiv base 2), "期限が近いため少量発注推奨")
    else if (1.2 : ℚ) < info.ratio then
      (base, "需要増加見込み（+" ++ pyFmt0 info.change_percent ++ "%）")
    else if info.ratio < (0.8 : ℚ) then
      (max 0 (Int.fdiv base 2),
       "需要減少見込み（" ++ pyFmt0 info.change_percent ++ "%）→ 控えめ発注")
    else
      (base, "通常発注")
  { item_id := item.item_id
    item_name := item.item_name
    category := category
    current_quantity := item.quantity
    reorder_point := item.reorder_point
    adjusted_target := target
    demand_ratio := pyRound 2 info.ratio
    recommended_order_quantity := r.1
    remaining_hours_until_expiry := rh
    note := r.2 }

/-- The inner loop of `_calculate_orders` over one category's items. -/
def categoryRecs (preds : List Pred) (ssd : ℚ) (category : String)
    (items : List InvItemRow) : List Recommendation :=
  items.map (calcItem category (lookupInfo preds category) ssd)

/-- Sort key of the final `recommendations.sort` in `_calculate_orders`:
the Python tuple `(-quantity, category, item_name)` under lexicographic order. -/
def recKey (r : Recommendation) : ℤ ×ₗ String ×ₗ String :=
  toLex (-r.recommended_order_quantity, toLex (r.category, r.item_name))

/-- Comparator of the final recommendation sort (Python `list.sort` is an
ascending stable sort on the key tuples). -/
def recLe (a b : Recommendation) : Bool := decide (recKey a ≤ recKey b)

/-- `recommendations.sort(key=lambda x: (-x[...], x["category"], x["item_name"]))`,
modelled by a stable merge sort, as Python list.sort is a stable sort. -/
def sortRecommendations (l : List Recommendation) : List Recommendation :=
  l.mergeSort recLe

/-- `OrderOptimizerTool._calculate_orders`. -/
def calculateOrders (preds : List Pred)
    (invByCat : List (String × List InvItemRow)) (ssd : ℚ) : List Recommendation :=
  sortRecommendations ((invByCat.map (fun e => categoryRecs preds ssd e.1 e.2)).flatten)

/-- The data held in the demand model artifact (`models/demand_model.pkl`):
label-encoder classes, encoders, item list, the regressor (as an abstract
function from the encoded feature vector) and the base-demand table. -/
structure DemandModelData where
  weatherClasses : List String
  encodeWeather : String → ℕ
  items : List String
  encodeItem : String → ℕ
  predictRaw : ℕ → ℚ → ℚ → ℕ → ℕ → ℕ → ℕ → ℚ
  baseDemand : List (String × ℤ)

/-- An ASCII single-quote character, as used by the weather warning f-string. -/
def squote : String := String.singleton (Char.ofNat 39)

/-- The warning built in `DemandForecastTool._predict` for an unsupported
weather value: it names the value and the supported class list. -/
def unsupportedWeatherMessage (weather : String) (classes : List String) : String :=
  squote ++ weather ++ squote ++ " は未対応です（対応: " ++
    String.intercalate ", " classes ++ "）。cloudy として予測します"

/-- Comparator of `predictions.sort(key=lambda x: abs(x["change_percent"]),
reverse=True)`: descending absolute change percent. -/
def predLe (a b : Pred) : Bool := decide (|b.change_percent| ≤ |a.change_percent|)

/-- The prediction sort of `DemandForecastTool._predict`, modelled by a stable
merge sort, as Python list.sort is a stable sort (reverse=True negates the
comparison but keeps ties in original order). -/
def sortPredictions (l : List Pred) : List Pred := l.mergeSort predLe

/-- `DemandForecastTool._predict`. Rational division is total (q / 0 = 0)
where Python would raise on `base = 0`; all base-demand values of the shipped
model artifact are positive, and every claim is settled at positive bases. -/
def predictAll (m : DemandModelData) (weather : String)
    (temperature humidity : ℚ) (dayOfWeek isWeekend hour : ℕ) :
    List Pred × Option String :=
  let ww : String × Option String :=
    if weather ∈ m.weatherClasses then (weather, none)
    else ("cloudy", some (unsupportedWeatherMessage weather m.weatherClasses))
  let we := m.encodeWeather ww.1
  let preds := m.items.map (fun item =>
    let ie := m.encodeItem item
    let predicted : ℤ :=
      pyInt (m.predictRaw we temperature humidity dayOfWeek isWeekend hour ie)
    let base : ℤ := (((m.baseDemand.find? (fun e => e.1 == item)).map Prod.snd)).getD 50
    let cp := pyRound 1 (((predicted : ℚ) / (base : ℚ) - 1) * 100)
    { item := item, predicted_demand := predicted, base_demand := base
      change_percent := cp })
  (sortPredictions preds, ww.2)

/-- `safety_stock_days = max(0.5, min(float(...), 3.0))` in
`OrderOptimizerTool._invoke`; a `float()` conversion failure (modelled by
`none`) falls back to `1.0`. -/
def parseSafetyStockDays (input : Option ℚ) : ℚ :=
  match input with
  | none => 1
  | some x => max (0.5 : ℚ) (min x (3.0 : ℚ))

/-- One entry of the `category_summary` dict built in
`OrderOptimizerTool._invoke`. -/
structure CategorySummary where
  order_quantity : ℤ
  demand_ratio : ℚ
  deriving DecidableEq, Repr

/-- The `category_summary` accumulation loop of `OrderOptimizerTool._invoke`:
first recommendation of a category fixes its reported ratio; quantities add up. -/
def buildCategorySummary (recs : List Recommendation) :
    List (String × CategorySummary) :=
  recs.foldl (fun m r =>
    if (m.find? (fun e => e.1 == r.category)).isSome then
      m.map (fun e =>
        if e.1 == r.category then
          (e.1, { e.2 with order_quantity := e.2.order_quantity + r.recommended_order_quantity })
        else e)
    else
      m ++ [(r.category, { order_quantity := r.recommended_order_quantity
                           demand_ratio := r.demand_ratio })]) []

/-- The JSON result assembled by a successful `OrderOptimizerTool._invoke`. -/
structure OptimizeResult where
  safety_stock_days : ℚ
  demand_forecast : List Pred
  recommendations : List Recommendation
  category_summary : List (String × CategorySummary)
  total_items : ℕ
  items_to_order : ℕ
  total_order_quantity : ℤ
  weather_warning : Option String
  deriving DecidableEq, Repr

/-- The single message yielded by `OrderOptimizerTool._invoke`: either the
full result dict, or the error dict produced by the outermost handler. -/
inductive OptimizeOutcome where
  | success (r : OptimizeResult)
  | failure (msg : String)
  deriving DecidableEq, Repr

/-- `OrderOptimizerTool._invoke`. The demand prediction and the inventory
snapshot are the two fallible sub-steps inside the try block; each is passed
as an `Except` so that a raised exception (model-load failure, store failure)
is an `error` value, converted by the outermost handler into the error dict. -/
def optimizeInvoke (ssdInput : Option ℚ)
    (predResult : Except String (List Pred × Option String))
    (invResult : Except String (List (String × List InvItemRow))) :
    OptimizeOutcome :=
  let ssd := parseSafetyStockDays ssdInput
  match predResult with
  | .error e => .failure e
  | .ok pw =>
    match invResult with
    | .error e => .failure e
    | .ok inv =>
      let recs := calculateOrders pw.1 inv ssd
      .success
        { safety_stock_days := ssd
          demand_forecast := pw.1
          recommendations := recs
          category_summary := buildCategorySummary recs
          total_items := recs.length
          items_to_order := (recs.filter (fun r => 0 < r.recommended_order_quantity)).length
          total_order_quantity := (recs.map (fun r => r.recommended_order_quantity)).sum
          weather_warning := pw.2 }

/-- A row of the `inventory` table of `inventory_manager.py`. Timestamps are
modelled as rational hour offsets. -/
structure Item where
  item_id : String
  item_name : String
  category : String
  quantity : ℤ
  min_stock_level : ℤ
  reorder_point : ℤ
  stocked_at : ℚ
  expires_at : ℚ
  deriving DecidableEq, Repr

/-- A row of the `stock_movements` table. -/
structure Movement where
  movement_id : String
  item_id : String
  item_name : String
  movement_type : String
  quantity : ℤ
  reason : String
  created_at : ℚ
  deriving DecidableEq, Repr

/-- The mutable state behind the inventory tool: the `inventory` table and the
append-only `stock_movements` ledger. -/
structure InvState where
  inventory : List Item
  movements : List Movement
  deriving DecidableEq, Repr

/-- Parameters of the `add_stock` action. `quantity` is `none` when missing. -/
structure AddParams where
  item_id : Option String
  item_name : Option String
  category : Option String
  quantity : Option ℤ
  expires_in_hours : Option ℚ
  deriving DecidableEq, Repr

/-- Parameters of the `remove_stock` action. -/
structure RemoveParams where
  item_id : Option String
  quantity : Option ℤ
  reason : Option String
  deriving DecidableEq, Repr

/-- Python `str.strip()`: drop whitespace from both ends. -/
def pyStrip (s : String) : String :=
  String.mk (((s.data.dropWhile Char.isWhitespace).reverse.dropWhile
    Char.isWhitespace).reverse)

/-- `params.get(k, "").strip() if params.get(k) else ""`: a missing value
and the empty string both give `""`; otherwise the value is stripped. -/
def normParam : Option String → String
  | none => ""
  | some s => pyStrip s

/-- `params.get("reason", "販売").strip() if params.get("reason") else "販売"`. -/
def normReason : Option String → String
  | none => "販売"
  | some s => if s = "" then "販売" else pyStrip s

/-- Python substring test `sub in s`, via infix of the character lists. -/
def strContains (s sub : String) : Bool := decide (sub.data <:+: s.data)

/-- The validation error message for a missing or non-positive quantity. -/
def quantityErrorMsg : String := "quantity は1以上の数値を指定してください"

/-- The insufficient-stock error message of `_action_remove_stock`, carrying
the current stock and the requested amount. -/
def insufficientMsg (oldQty q : ℤ) : String :=
  "在庫不足です。現在の在庫: " ++ toString oldQty ++ "、出庫要求: " ++ toString q

/-- `SELECT MAX(CAST(SUBSTR(item_id, 4) AS INTEGER))` followed by
`item_id = f"INV{(max_id or 0) + 1:03d}"` in `_action_add_stock`. -/
def genItemId (inv : List Item) : String :=
  let maxId := (inv.filterMap (fun it => (it.item_id.drop 3).toInt?)).foldl max 0
  let s := toString (maxId + 1)
  "INV" ++ (if s.length < 3 then String.mk (List.replicate (3 - s.length) '0') ++ s else s)

/-- Success payload of `_action_add_stock` (the two success dicts of the
existing-item and the new-item branch). -/
inductive AddOk where
  | existing (item_id item_name : String)
      (previous_quantity added_quantity new_quantity : ℤ) (movement_id : String)
  | created (item_id item_name category : String) (quantity : ℤ)
      (expires_at : ℚ) (movement_id : String)
  deriving DecidableEq, Repr

/-- The quantity delta of a successful `add_stock` call. -/
def AddOk.delta : AddOk → ℤ
  | .existing _ _ _ a _ _ => a
  | .created _ _ _ q _ _ => q

/-- Success payload of `_action_remove_stock`. -/
structure RemoveOk where
  item_id : String
  item_name : String
  previous_quantity : ℤ
  removed_quantity : ℤ
  new_quantity : ℤ
  reason : String
  movement_id : String
  deriving DecidableEq, Repr

/-- `InventoryManagerTool._action_add_stock`. `seedExpirationHours` is the
category→default-expiry table of the seed data (`.get(category, 8)`), `now`
the current JST time and `mid` the generated movement id. Returns the
result dict (`Except.error` = the `{"error": ...}` dict) and the state after
the call. The `UPDATE`/`INSERT` statements act on the state lists; `CAST` of
a non-`INVnnn` id is modelled by skipping unparsable ids. -/
def addStock (seedExpirationHours : List (String × ℚ)) (s : InvState)
    (p : AddParams) (now : ℚ) (mid : String) : Except String AddOk × InvState :=
  let item_id := normParam p.item_id
  let item_name := normParam p.item_name
  let category := normParam p.category
  match p.quantity with
  | none => (.error quantityErrorMsg, s)
  | some q =>
    if q ≤ 0 then (.error quantityErrorMsg, s)
    else
      match s.inventory.find? (fun it => it.item_id == item_id) with
      | some ex =>
        let newQty := ex.quantity + q
        let inv := s.inventory.map (fun it =>
          if it.item_id == item_id then { it with quantity := newQty } else it)
        let mv : Movement :=
          { movement_id := mid, item_id := item_id, item_name := ex.item_name
            movement_type := "in", quantity := q, reason := "入荷", created_at := now }
        (.ok (.existing item_id ex.item_name ex.quantity q newQty mid),
         { inventory := inv, movements := s.movements ++ [mv] })
      | none =>
        if item_name = "" then (.error "新規商品には item_name が必要です", s)
        else if category = "" then (.error "新規商品には category が必要です", s)
        else
          let expHours := p.expires_in_hours.getD
            ((((seedExpirationHours.find? (fun e => e.1 == category))).map Prod.snd).getD 8)
          let newId := if item_id = "" then genItemId s.inventory else item_id
          let newItem : Item :=
            { item_id := newId, item_name := item_name, category := category
              quantity := q, min_stock_level := 5, reorder_point := 10
              stocked_at := now, expires_at := now + expHours }
          let mv : Movement :=
            { movement_id := mid, item_id := newId, item_name := item_name
              movement_type := "in", quantity := q, reason := "新規入荷", created_at := now }
          (.ok (.created newId item_name category q (now + expHours) mid),
           { inventory := s.inventory ++ [newItem], movements := s.movements ++ [mv] })

/-- `InventoryManagerTool._action_remove_stock`. -/
def removeStock (s : InvState) (p : RemoveParams) (now : ℚ) (mid : String) :
    Except String RemoveOk × InvState :=
  let item_id := normParam p.item_id
  let reason := normReason p.reason
  if item_id = "" then (.error "item_id を指定してください", s)
  else
    match p.quantity with
    | none => (.error quantityErrorMsg, s)
    | some q =>
      if q ≤ 0 then (.error quantityErrorMsg, s)
      else
        match s.inventory.find? (fun it => it.item_id == item_id) with
        | none => (.error ("商品が見つかりません: " ++ item_id), s)
        | some ex =>
          if ex.quantity < q then (.error (insufficientMsg ex.quantity q), s)
          else
            let newQty := ex.quantity - q
            let inv := s.inventory.map (fun it =>
              if it.item_id == item_id then { it with quantity := newQty } else it)
            let mtype := if strContains reason "廃棄" || strContains reason "期限"
              then "expired" else "out"
            let mv : Movement :=
              { movement_id := mid, item_id := item_id, item_name := ex.item_name
                movement_type := mtype, quantity := q, reason := reason, created_at := now }
            (.ok { item_id := item_id, item_name := ex.item_name
                   previous_quantity := ex.quantity, removed_quantity := q
                   new_quantity := newQty, reason := reason, movement_id := mid },
             { inventory := inv, movements := s.movements ++ [mv] })

/-- One stock-mutating tool call (its parameters, current time and generated
movement id). -/
inductive InvOp where
  | add (p : AddParams) (now : ℚ) (mid : String)
  | remove (p : RemoveParams) (now : ℚ) (mid : String)

/-- The state after one `add_stock`/`remove_stock` call. -/
def stepState (seed : List (String × ℚ)) (s : InvState) : InvOp → InvState
  | .add p now mid => (addStock seed s p now mid).2
  | .remove p now mid => (removeStock s p now mid).2

/-- The state after a sequence of `add_stock`/`remove_stock` calls. -/
def runOps (seed : List (String × ℚ)) (s : InvState) (ops : List InvOp) : InvState :=
  ops.foldl (stepState seed) s

/-- Every inventory row has non-negative quantity. -/
def NonNegInv (s : InvState) : Prop := ∀ it ∈ s.inventory, 0 ≤ it.quantity

/-- For a non-negative base order, the code value `max(0, b // 2)` is the floor
of `b / 2`. -/
theorem half_base_eq_floor (b : ℤ) (hb : 0 ≤ b) :
    max 0 (Int.fdiv b 2) = ⌊(b : ℚ) / 2⌋ := by
  rw [Int.fdiv_eq_ediv _ (by norm_num)]
  rw [show ((2 : ℚ)) = ((2 : ℕ) : ℚ) by norm_num, Rat.floor_intCast_div_natCast]
  exact max_eq_right (Int.ediv_nonneg hb (by norm_num))

/-- **C1**: in `OrderOptimizer.optimize`, with base order
`b = baseOrder info ssd item = max(0, adjusted_target − current_quantity)`,
the recommended order quantity is decided by the first matching rule of the
ordered list: `remaining_hours < 4` gives `0`; otherwise `remaining_hours < 8`
gives `⌊b/2⌋`; otherwise `demand_ratio > 1.2` gives `b`; otherwise
`demand_ratio < 0.8` gives `⌊b/2⌋`; otherwise `b`. The expiry boundaries are
strict: `remaining_hours = 3.9` yields `0`, `remaining_hours = 7.9` yields
`⌊b/2⌋`, and `remaining_hours = 8.0` yields the full `b` (per the rule list,
in the normal-demand band `0.8 ≤ ratio ≤ 1.2`). -/
theorem order_policy_first_match (category : String) (info : DemandInfo)
    (ssd : ℚ) (item : InvItemRow) :
    ((calcItem category info ssd item).recommended_order_quantity =
      if item.remaining_hours < 4 then 0
      else if item.remaining_hours < 8 then ⌊(baseOrder info ssd item : ℚ) / 2⌋
      else if (1.2 : ℚ) < info.ratio then baseOrder info ssd item
      else if info.ratio < (0.8 : ℚ) then ⌊(baseOrder info ssd item : ℚ) / 2⌋
      else baseOrder info ssd item)
    ∧ (item.remaining_hours = 3.9 →
        (calcItem category info ssd item).recommended_order_quantity = 0)
    ∧ (item.remaining_hours = 7.9 →
        (calcItem category info ssd item).recommended_order_quantity =
          ⌊(baseOrder info ssd item : ℚ) / 2⌋)
    ∧ (item.remaining_hours = 8 → (0.8 : ℚ) ≤ info.ratio → info.ratio ≤ (1.2 : ℚ) →
        (calcItem category info ssd item).recommended_order_quantity =
          baseOrder info ssd item) := by
  have hb : 0 ≤ baseOrder info ssd item := le_max_left 0 _
  have hd := half_base_eq_floor (baseOrder info ssd item) hb
  have hmain : (calcItem category info ssd item).recommended_order_quantity =
      if item.remaining_hours < 4 then 0
      else if item.remaining_hours < 8 then ⌊(baseOrder info ssd item : ℚ) / 2⌋
      else if (1.2 : ℚ) < info.ratio then baseOrder info ssd item
      else if info.ratio < (0.8 : ℚ) then ⌊(baseOrder info ssd item : ℚ) / 2⌋
      else baseOrder info ssd item := by
    simp only [calcItem, ← hd]
    split_ifs <;> rfl
  refine ⟨hmain, ?_, ?_, ?_⟩
  · intro h
    rw [hmain, h]
    norm_num
  · intro h
    rw [hmain, h]
    norm_num
  · intro h h1 h2
    rw [hmain, h]
    rw [if_neg (by norm_num), if_neg (by norm_num), if_neg (by exact not_lt.mpr h2),
      if_neg (by exact not_lt.mpr h1)]

/-- Witness for the policy theorem: a rice-ball item at `remaining_hours = 3.9`
gets order `0`; the same item at `remaining_hours = 8.0` in the normal-demand
band gets its full base order of `8`. -/
theorem order_policy_first_match_witness :
    (calcItem "おにぎり" defaultDemandInfo 1
      { item_id := "INV001", item_name := "シャケおにぎり", category := "おにぎり"
        quantity := 2, min_stock_level := 5, reorder_point := 10
        remaining_hours := 3.9 }).recommended_order_quantity = 0 ∧
    (calcItem "おにぎり" defaultDemandInfo 1
      { item_id := "INV001", item_name := "シャケおにぎり", category := "おにぎり"
        quantity := 2, min_stock_level := 5, reorder_point := 10
        remaining_hours := 8 }).recommended_order_quantity = 8 := by
  constructor
  · exact (order_policy_first_match "おにぎり" defaultDemandInfo 1
      { item_id := "INV001", item_name := "シャケおにぎり", category := "おにぎり"
        quantity := 2, min_stock_level := 5, reorder_point := 10
        remaining_hours := 3.9 }).2.1 rfl
  · have h := (order_policy_first_match "おにぎり" defaultDemandInfo 1
      { item_id := "INV001", item_name := "シャケおにぎり", category := "おにぎり"
        quantity := 2, min_stock_level := 5, reorder_point := 10
        remaining_hours := 8 }).2.2.2 rfl
      (by norm_num [defaultDemandInfo]) (by norm_num [defaultDemandInfo])
    rw [h]
    norm_num [baseOrder, adjustedTarget, pyInt, defaultDemandInfo]

/-- **C5**: for the rice-ball item with quantity 2, reorder point 10 and
24 hours of shelf life, and a forecast entry with predicted demand 35 over
base 50 (ratio 0.7 < 0.8), `optimize` with safety-stock multiplier 1 computes
`adjusted_target = ⌊10×0.7×1⌋ = 7`, base order `max(0, 7−2) = 5`, final
quantity `⌊5/2⌋ = 2`, reported ratio `0.7`, and the conservative-order note
`需要減少見込み（-30%）→ 控えめ発注`. -/
theorem low_demand_scenario :
    calculateOrders
      [{ item := "おにぎり", predicted_demand := 35, base_demand := 50
         change_percent := -30 }]
      [("おにぎり",
        [{ item_id := "INV001", item_name := "シャケおにぎり", category := "おにぎり"
           quantity := 2, min_stock_level := 5, reorder_point := 10
           remaining_hours := 24 }])] 1 =
    [{ item_id := "INV001", item_name := "シャケおにぎり", category := "おにぎり"
       current_quantity := 2, reorder_point := 10, adjusted_target := 7
       demand_ratio := 0.7, recommended_order_quantity := 2
       remaining_hours_until_expiry := 24
       note := "需要減少見込み（-30%）→ 控えめ発注" }] := by
  have hfmt : pyFmt0 (-30) = "-30" := by
    rw [pyFmt0, show pyRoundInt (-30) = -30 by norm_num [pyRoundInt]]
    rfl
  have hinfo : lookupInfo
      [{ item := "おにぎり", predicted_demand := 35, base_demand := 50
         change_percent := -30 }] "おにぎり" =
      { ratio := 0.7, predicted_demand := 35, base_demand := 50
        change_percent := -30 } := by
    rw [lookupInfo, demandRatioMap]
    norm_num [List.find?, mkDemandInfo]
  rw [calculateOrders]
  simp only [List.map_cons, List.map_nil, categoryRecs, List.flatten,
    List.append_nil]
  rw [sortRecommendations, List.mergeSort_singleton, hinfo]
  simp only [calcItem, adjustedTarget, baseOrder]
  norm_num [pyInt, pyRound, pyRoundInt, hfmt]
  exact ⟨by decide, rfl⟩

/-- **C9**: `optimize` clamps `safetyStockDays` to `[0.5, 3.0]`: an input of
`10` is used as `3.0`, an input of `0.1` as `0.5`, any value already inside
the interval is used unchanged, and a non-numeric input falls back to `1.0`;
the clamped value is the one a successful `optimize` call reports in its
`conditions`. -/
theorem safety_stock_clamp :
    parseSafetyStockDays (some 10) = 3
    ∧ parseSafetyStockDays (some 0.1) = 0.5
    ∧ (∀ x : ℚ, 0.5 ≤ x → x ≤ 3 → parseSafetyStockDays (some x) = x)
    ∧ parseSafetyStockDays none = 1
    ∧ (∀ ssdInput pw inv r,
        optimizeInvoke ssdInput (.ok pw) (.ok inv) = .success r →
        r.safety_stock_days = parseSafetyStockDays ssdInput) := by
  refine ⟨by norm_num [parseSafetyStockDays], by norm_num [parseSafetyStockDays],
    ?_, rfl, ?_⟩
  · intro x h1 h2
    rw [parseSafetyStockDays,
      min_eq_left (le_trans h2 (by norm_num)), max_eq_right h1]
  · intro ssdInput pw inv r h
    rw [optimizeInvoke] at h
    cases h
    rfl

/-- Witness for the clamp theorem: `1.7` lies inside the clamp interval and is
used unchanged, and a successful `optimize` call with input `10` reports the
clamped `3.0`. -/
theorem safety_stock_clamp_witness :
    parseSafetyStockDays (some 1.7) = 1.7 ∧
    ∀ r, optimizeInvoke (some 10) (.ok ([], none)) (.ok []) = .success r →
      r.safety_stock_days = 3 := by
  constructor
  · exact safety_stock_clamp.2.2.1 1.7 (by norm_num) (by norm_num)
  · intro r h
    rw [safety_stock_clamp.2.2.2.2 (some 10) ([], none) [] r h]
    exact safety_stock_clamp.1

/-- Folding forecast entries whose category never matches `cat` over the
`demand_ratio_map` accumulator does not change what a lookup of `cat` finds. -/
theorem find?_demand_map_aux (cat : String) :
    ∀ (preds : List Pred) (acc : List (String × DemandInfo)),
      (∀ p ∈ preds, p.item ≠ cat) →
      (preds.foldl (fun m p => (p.item, mkDemandInfo p) :: m) acc).find?
          (fun e => e.1 == cat) =
        acc.find? (fun e => e.1 == cat)
  | [], _, _ => rfl
  | p :: ps, acc, h => by
    rw [List.foldl_cons,
      find?_demand_map_aux cat ps _ (fun q hq => h q (List.mem_cons_of_mem _ hq)),
      List.find?_cons_of_neg]
    simpa using h p (List.mem_cons_self p ps)

/-- A category with no matching forecast entry resolves to the default map
value, whose ratio is exactly 1. -/
theorem lookupInfo_of_no_match (preds : List Pred) (cat : String)
    (h : ∀ p ∈ preds, p.item ≠ cat) :
    lookupInfo preds cat = defaultDemandInfo := by
  rw [lookupInfo, demandRatioMap, find?_demand_map_aux cat preds [] h]
  rfl

/-- Every recommendation in the optimizer output arises from `calcItem` on
some inventory row of some category block, with the looked-up demand info. -/
theorem mem_calculateOrders {r : Recommendation} {preds : List Pred}
    {invByCat : List (String × List InvItemRow)} {ssd : ℚ} :
    r ∈ calculateOrders preds invByCat ssd ↔
      ∃ e ∈ invByCat, ∃ it ∈ e.2,
        r = calcItem e.1 (lookupInfo preds e.1) ssd it := by
  rw [calculateOrders, sortRecommendations, List.mem_mergeSort]
  simp only [List.mem_flatten, List.mem_map, categoryRecs]
  constructor
  · rintro ⟨l, ⟨e, he, rfl⟩, hr⟩
    obtain ⟨it, hit, hr⟩ := List.mem_map.mp hr
    exact ⟨e, he, it, hit, hr.symm⟩
  · rintro ⟨e, he, it, hit, rfl⟩
    exact ⟨_, ⟨e, he, rfl⟩, List.mem_map.mpr ⟨it, hit, rfl⟩⟩

/-- **C6**: in `optimize`, for every inventory category with no matching entry
in the demand forecast, the demand ratio used for each of that category's
recommendations is exactly 1: the reported `demand_ratio` is `1`, and the
`adjusted_target` was computed with ratio factor `1`. -/
theorem category_fallback_ratio (preds : List Pred)
    (invByCat : List (String × List InvItemRow)) (ssd : ℚ) (r : Recommendation)
    (hr : r ∈ calculateOrders preds invByCat ssd)
    (h : ∀ p ∈ preds, p.item ≠ r.category) :
    r.demand_ratio = 1 ∧
    r.adjusted_target = pyInt ((r.reorder_point : ℚ) * 1 * ssd) := by
  obtain ⟨e, _, it, _, rfl⟩ := mem_calculateOrders.mp hr
  have hcat : (calcItem e.1 (lookupInfo preds e.1) ssd it).category = e.1 := by
    simp [calcItem]
  rw [hcat] at h
  rw [show calcItem e.1 (lookupInfo preds e.1) ssd it =
      calcItem e.1 defaultDemandInfo ssd it by
    rw [lookupInfo_of_no_match preds e.1 h]]
  constructor
  · show pyRound 2 defaultDemandInfo.ratio = 1
    norm_num [pyRound, pyRoundInt, defaultDemandInfo]
  · simp [calcItem, adjustedTarget, defaultDemandInfo]

/-- Witness for the fallback theorem: a rice-ball category facing a forecast
that only covers hot snacks gets reported ratio exactly 1. -/
theorem category_fallback_ratio_witness :
    (calcItem "おにぎり"
      (lookupInfo
        [{ item := "ホットスナック", predicted_demand := 60, base_demand := 50
           change_percent := 20 }] "おにぎり") 1
      { item_id := "INV001", item_name := "シャケおにぎり", category := "おにぎり"
        quantity := 2, min_stock_level := 5, reorder_point := 10
        remaining_hours := 24 }).demand_ratio = 1 := by
  have hmem : calcItem "おにぎり"
      (lookupInfo
        [{ item := "ホットスナック", predicted_demand := 60, base_demand := 50
           change_percent := 20 }] "おにぎり") 1
      { item_id := "INV001", item_name := "シャケおにぎり", category := "おにぎり"
        quantity := 2, min_stock_level := 5, reorder_point := 10
        remaining_hours := 24 } ∈ calculateOrders
      [{ item := "ホットスナック", predicted_demand := 60, base_demand := 50
         change_percent := 20 }]
      [("おにぎり",
        [{ item_id := "INV001", item_name := "シャケおにぎり", category := "おにぎり"
           quantity := 2, min_stock_level := 5, reorder_point := 10
           remaining_hours := 24 }])] 1 := by
    exact mem_calculateOrders.mpr
      ⟨_, List.mem_singleton_self _, _, List.mem_singleton_self _, rfl⟩
  refine (category_fallback_ratio _ _ _ _ hmem ?_).1
  intro p hp
  rw [List.mem_singleton] at hp
  subst hp
  show "ホットスナック" ≠ (calcItem _ _ _ _).category
  simp [calcItem]

/-- **C7**: for every weather string outside the model's trained weather
classes, `predict` does not raise: it returns the full prediction set computed
as if the weather were `"cloudy"`, together with the warning naming the
unsupported value and the supported set; for a known weather value no warning
is produced. (`"cloudy"` is among the trained classes of the shipped model.) -/
theorem weather_fallback (m : DemandModelData) (weather : String)
    (temperature humidity : ℚ) (dayOfWeek isWeekend hour : ℕ)
    (hcloudy : "cloudy" ∈ m.weatherClasses) :
    (weather ∉ m.weatherClasses →
      (predictAll m weather temperature humidity dayOfWeek isWeekend hour).1 =
        (predictAll m "cloudy" temperature humidity dayOfWeek isWeekend hour).1 ∧
      (predictAll m weather temperature humidity dayOfWeek isWeekend hour).2 =
        some (unsupportedWeatherMessage weather m.weatherClasses)) ∧
    (weather ∈ m.weatherClasses →
      (predictAll m weather temperature humidity dayOfWeek isWeekend hour).2 =
        none) := by
  constructor
  · intro hw
    constructor
    · simp only [predictAll, if_neg hw, if_pos hcloudy]
    · simp only [predictAll, if_neg hw]
  · intro hw
    simp only [predictAll, if_pos hw]

/-- Witness for the weather fallback: a three-class model queried with
`"storm"` warns about `"storm"` and predicts exactly as for `"cloudy"`. -/
theorem weather_fallback_witness :
    (predictAll
      { weatherClasses := ["sunny", "cloudy", "rainy"]
        encodeWeather := fun _ => 0, items := ["からあげクン"]
        encodeItem := fun _ => 0, predictRaw := fun _ _ _ _ _ _ _ => 55
        baseDemand := [("からあげクン", 50)] } "storm" 25 80 0 0 12).1 =
      (predictAll
        { weatherClasses := ["sunny", "cloudy", "rainy"]
          encodeWeather := fun _ => 0, items := ["からあげクン"]
          encodeItem := fun _ => 0, predictRaw := fun _ _ _ _ _ _ _ => 55
          baseDemand := [("からあげクン", 50)] } "cloudy" 25 80 0 0 12).1 ∧
    (predictAll
      { weatherClasses := ["sunny", "cloudy", "rainy"]
        encodeWeather := fun _ => 0, items := ["からあげクン"]
        encodeItem := fun _ => 0, predictRaw := fun _ _ _ _ _ _ _ => 55
        baseDemand := [("からあげクン", 50)] } "storm" 25 80 0 0 12).2 =
      some (unsupportedWeatherMessage "storm" ["sunny", "cloudy", "rainy"]) := by
  exact (weather_fallback
    { weatherClasses := ["sunny", "cloudy", "rainy"]
      encodeWeather := fun _ => 0, items := ["からあげクン"]
      encodeItem := fun _ => 0, predictRaw := fun _ _ _ _ _ _ _ => 55
      baseDemand := [("からあげクン", 50)] } "storm" 25 80 0 0 12
    (by decide)).1 (by decide)

/-- The prediction comparator is transitive. -/
theorem predLe_trans : ∀ a b c : Pred, predLe a b → predLe b c → predLe a c := by
  intro a b c hab hbc
  simp only [predLe, decide_eq_true_eq] at *
  exact le_trans hbc hab

/-- The prediction comparator is total. -/
theorem predLe_total : ∀ a b : Pred, predLe a b || predLe b a := by
  intro a b
  simp only [predLe, Bool.or_eq_true, decide_eq_true_eq]
  exact le_total _ _

/-- The recommendation comparator is transitive. -/
theorem recLe_trans : ∀ a b c : Recommendation, recLe a b → recLe b c → recLe a c := by
  intro a b c hab hbc
  simp only [recLe, decide_eq_true_eq] at *
  exact le_trans hab hbc

/-- The recommendation comparator is total. -/
theorem recLe_total : ∀ a b : Recommendation, recLe a b || recLe b a := by
  intro a b
  simp only [recLe, Bool.or_eq_true, decide_eq_true_eq]
  exact le_total _ _

/-- The recommendation comparator spelt out: quantity descending, then
category ascending, then item name ascending. -/
theorem recLe_iff (a b : Recommendation) :
    recLe a b = true ↔
      (b.recommended_order_quantity < a.recommended_order_quantity ∨
        (a.recommended_order_quantity = b.recommended_order_quantity ∧
          (a.category < b.category ∨
            (a.category = b.category ∧ a.item_name ≤ b.item_name)))) := by
  simp only [recLe, recKey, decide_eq_true_eq, Prod.Lex.le_iff]
  rw [neg_lt_neg_iff, neg_inj]

/-- **C8**: `predict` returns its predictions sorted by absolute change
percent descending with a stable tie-break preserving the original order
(elements of any fixed absolute change percent appear exactly as in the
input), and `optimize` returns its recommendations sorted by recommended
order quantity descending with ties broken by category then item name
ascending; both sorts permute their input, and both are pure functions, so
running them twice on identical inputs yields identical orderings. -/
theorem sort_order_determinism (l : List Pred) (rl : List Recommendation) (v : ℚ) :
    (sortPredictions l).Pairwise
      (fun a b => |b.change_percent| ≤ |a.change_percent|)
    ∧ (sortPredictions l).Perm l
    ∧ (sortPredictions l).filter (fun p => decide (|p.change_percent| = v)) =
        l.filter (fun p => decide (|p.change_percent| = v))
    ∧ (sortRecommendations rl).Pairwise (fun a b =>
        b.recommended_order_quantity < a.recommended_order_quantity ∨
          (a.recommended_order_quantity = b.recommended_order_quantity ∧
            (a.category < b.category ∨
              (a.category = b.category ∧ a.item_name ≤ b.item_name))))
    ∧ (sortRecommendations rl).Perm rl
    ∧ sortPredictions l = sortPredictions l
    ∧ sortRecommendations rl = sortRecommendations rl := by
  refine ⟨?_, ?_, ?_, ?_, ?_, rfl, rfl⟩
  · exact (List.sorted_mergeSort predLe_trans predLe_total l).imp
      (fun hab => by simpa [predLe] using hab)
  · exact List.mergeSort_perm l predLe
  · have hpw : (l.filter (fun p => decide (|p.change_percent| = v))).Pairwise
        (fun a b => predLe a b) := by
      apply List.pairwise_of_forall_mem_list
      intro a ha b hb
      have ha2 := of_decide_eq_true (List.mem_filter.mp ha).2
      have hb2 := of_decide_eq_true (List.mem_filter.mp hb).2
      simp [predLe, ha2, hb2]
    have hsub2 : List.Sublist
        (l.filter (fun p => decide (|p.change_percent| = v)))
        (sortPredictions l) :=
      List.sublist_mergeSort predLe_trans predLe_total hpw (List.filter_sublist l)
    have hself : (l.filter (fun p => decide (|p.change_percent| = v))).filter
        (fun p => decide (|p.change_percent| = v)) =
        l.filter (fun p => decide (|p.change_percent| = v)) :=
      List.filter_eq_self.mpr (fun a ha => (List.mem_filter.mp ha).2)
    have h3 : List.Sublist
        (l.filter (fun p => decide (|p.change_percent| = v)))
        ((sortPredictions l).filter (fun p => decide (|p.change_percent| = v))) := by
      rw [← hself]
      exact hsub2.filter _
    have hlen : ((sortPredictions l).filter
        (fun p => decide (|p.change_percent| = v))).length =
        (l.filter (fun p => decide (|p.change_percent| = v))).length :=
      ((List.mergeSort_perm l predLe).filter _).length_eq
    exact (h3.eq_of_length hlen.symm).symm
  · exact (List.sorted_mergeSort recLe_trans recLe_total rl).imp
      (fun hab => (recLe_iff _ _).mp hab)
  · exact List.mergeSort_perm rl recLe

/-- `add_stock` with a missing or non-positive quantity returns the
validation error dict and leaves the state unchanged. -/
theorem addStock_invalid_quantity (seed : List (String × ℚ)) (s : InvState)
    (p : AddParams) (now : ℚ) (mid : String)
    (h : p.quantity = none ∨ ∃ q, p.quantity = some q ∧ q ≤ 0) :
    addStock seed s p now mid = (.error quantityErrorMsg, s) := by
  rcases h with h | ⟨q, hq, hq0⟩
  · rw [addStock, h]
  · rw [addStock, hq]
    simp only [if_pos hq0]

/-- `add_stock` on an existing item: the computed result and state. -/
theorem addStock_existing (seed : List (String × ℚ)) (s : InvState)
    (p : AddParams) (now : ℚ) (mid : String) (ex : Item) (q : ℤ)
    (hq : p.quantity = some q) (hpos : 0 < q)
    (hfind : s.inventory.find? (fun it => it.item_id == normParam p.item_id) =
      some ex) :
    addStock seed s p now mid =
      (.ok (.existing (normParam p.item_id) ex.item_name ex.quantity q
          (ex.quantity + q) mid),
       { inventory := s.inventory.map (fun it =>
           if it.item_id == normParam p.item_id then
             { it with quantity := ex.quantity + q }
           else it)
         movements := s.movements ++
           [{ movement_id := mid, item_id := normParam p.item_id
              item_name := ex.item_name, movement_type := "in", quantity := q
              reason := "入荷", created_at := now }] }) := by
  rw [addStock, hq]
  simp only [if_neg (not_le.mpr hpos), hfind]

/-- `remove_stock` with a missing or non-positive quantity (and a non-empty
item id) returns the validation error dict and leaves the state unchanged. -/
theorem removeStock_invalid_quantity (s : InvState) (p : RemoveParams)
    (now : ℚ) (mid : String) (hne : normParam p.item_id ≠ "")
    (h : p.quantity = none ∨ ∃ q, p.quantity = some q ∧ q ≤ 0) :
    removeStock s p now mid = (.error quantityErrorMsg, s) := by
  rcases h with h | ⟨q, hq, hq0⟩
  · rw [removeStock, if_neg hne, h]
  · rw [removeStock, if_neg hne, hq]
    simp only [if_pos hq0]

/-- `remove_stock` for an unknown item id returns the not-found error dict
naming the id, and leaves the state unchanged. -/
theorem removeStock_unknown (s : InvState) (p : RemoveParams) (now : ℚ)
    (mid : String) (q : ℤ) (hne : normParam p.item_id ≠ "")
    (hq : p.quantity = some q) (hpos : 0 < q)
    (hfind : s.inventory.find? (fun it => it.item_id == normParam p.item_id) =
      none) :
    removeStock s p now mid =
      (.error ("商品が見つかりません: " ++ normParam p.item_id), s) := by
  rw [removeStock, if_neg hne, hq]
  simp only [if_neg (not_le.mpr hpos), hfind]

/-- `remove_stock` requesting more than the current stock returns the
insufficient-stock error dict carrying both values, and leaves the state
unchanged. -/
theorem removeStock_insufficient (s : InvState) (p : RemoveParams) (now : ℚ)
    (mid : String) (ex : Item) (q : ℤ) (hne : normParam p.item_id ≠ "")
    (hq : p.quantity = some q) (hpos : 0 < q)
    (hfind : s.inventory.find? (fun it => it.item_id == normParam p.item_id) =
      some ex)
    (hlt : ex.quantity < q) :
    removeStock s p now mid = (.error (insufficientMsg ex.quantity q), s) := by
  rw [removeStock, if_neg hne, hq]
  simp only [if_neg (not_le.mpr hpos), hfind, if_pos hlt]

/-- `remove_stock` with sufficient stock: the computed result and state. -/
theorem removeStock_success (s : InvState) (p : RemoveParams) (now : ℚ)
    (mid : String) (ex : Item) (q : ℤ) (hne : normParam p.item_id ≠ "")
    (hq : p.quantity = some q) (hpos : 0 < q)
    (hfind : s.inventory.find? (fun it => it.item_id == normParam p.item_id) =
      some ex)
    (hle : ¬ ex.quantity < q) :
    removeStock s p now mid =
      (.ok { item_id := normParam p.item_id, item_name := ex.item_name
             previous_quantity := ex.quantity, removed_quantity := q
             new_quantity := ex.quantity - q, reason := normReason p.reason
             movement_id := mid },
       { inventory := s.inventory.map (fun it =>
           if it.item_id == normParam p.item_id then
             { it with quantity := ex.quantity - q }
           else it)
         movements := s.movements ++
           [{ movement_id := mid, item_id := normParam p.item_id
              item_name := ex.item_name
              movement_type :=
                if strContains (normReason p.reason) "廃棄" ||
                    strContains (normReason p.reason) "期限" then "expired"
                else "out"
              quantity := q, reason := normReason p.reason
              created_at := now }] }) := by
  rw [removeStock, if_neg hne, hq]
  simp only [if_neg (not_le.mpr hpos), hfind, if_neg hle]

/-- `add_stock` for an unknown item id without an item name returns the
name-validation error dict and leaves the state unchanged. -/
theorem addStock_missing_name (seed : List (String × ℚ)) (s : InvState)
    (p : AddParams) (now : ℚ) (mid : String) (q : ℤ)
    (hq : p.quantity = some q) (hpos : 0 < q)
    (hfind : s.inventory.find? (fun it => it.item_id == normParam p.item_id) =
      none)
    (hnm : normParam p.item_name = "") :
    addStock seed s p now mid = (.error "新規商品には item_name が必要です", s) := by
  rw [addStock, hq]
  simp only [if_neg (not_le.mpr hpos), hfind, if_pos hnm]

/-- `add_stock` for an unknown item id without a category returns the
category-validation error dict and leaves the state unchanged. -/
theorem addStock_missing_category (seed : List (String × ℚ)) (s : InvState)
    (p : AddParams) (now : ℚ) (mid : String) (q : ℤ)
    (hq : p.quantity = some q) (hpos : 0 < q)
    (hfind : s.inventory.find? (fun it => it.item_id == normParam p.item_id) =
      none)
    (hnm : normParam p.item_name ≠ "") (hcat : normParam p.category = "") :
    addStock seed s p now mid = (.error "新規商品には category が必要です", s) := by
  rw [addStock, hq]
  simp only [if_neg (not_le.mpr hpos), hfind, if_neg hnm, if_pos hcat]

/-- `add_stock` creating a new item: the computed result and state. -/
theorem addStock_created (seed : List (String × ℚ)) (s : InvState)
    (p : AddParams) (now : ℚ) (mid : String) (q : ℤ)
    (hq : p.quantity = some q) (hpos : 0 < q)
    (hfind : s.inventory.find? (fun it => it.item_id == normParam p.item_id) =
      none)
    (hnm : normParam p.item_name ≠ "") (hcat : normParam p.category ≠ "") :
    addStock seed s p now mid =
      (let expHours := p.expires_in_hours.getD
        ((((seed.find? (fun e => e.1 == normParam p.category))).map Prod.snd).getD 8)
       let newId := if normParam p.item_id = "" then genItemId s.inventory
         else normParam p.item_id
       (.ok (.created newId (normParam p.item_name) (normParam p.category) q
          (now + expHours) mid),
        { inventory := s.inventory ++
            [{ item_id := newId, item_name := normParam p.item_name
               category := normParam p.category, quantity := q
               min_stock_level := 5, reorder_point := 10
               stocked_at := now, expires_at := now + expHours }]
          movements := s.movements ++
            [{ movement_id := mid, item_id := newId
               item_name := normParam p.item_name, movement_type := "in"
               quantity := q, reason := "新規入荷", created_at := now }] })) := by
  rw [addStock, hq]
  simp only [if_neg (not_le.mpr hpos), hfind, if_neg hnm, if_neg hcat]

/-- `add_stock` preserves non-negativity of all stock quantities. -/
theorem addStock_nonneg (seed : List (String × ℚ)) (s : InvState)
    (p : AddParams) (now : ℚ) (mid : String) (h : NonNegInv s) :
    NonNegInv (addStock seed s p now mid).2 := by
  cases hq : p.quantity with
  | none => rw [addStock_invalid_quantity seed s p now mid (Or.inl hq)]; exact h
  | some q =>
    by_cases hq0 : q ≤ 0
    · rw [addStock_invalid_quantity seed s p now mid (Or.inr ⟨q, hq, hq0⟩)]
      exact h
    · have hpos : 0 < q := lt_of_not_le hq0
      cases hfind : s.inventory.find?
          (fun it => it.item_id == normParam p.item_id) with
      | some ex =>
        rw [addStock_existing seed s p now mid ex q hq hpos hfind]
        intro it2 hit2
        obtain ⟨it, hit, rfl⟩ := List.mem_map.mp hit2
        by_cases hid : (it.item_id == normParam p.item_id) = true
        · have hex : 0 ≤ ex.quantity := h ex (List.mem_of_find?_eq_some hfind)
          simp only [hid, if_true]
          omega
        · simp only [hid, if_false]
          exact h it hit
      | none =>
        rw [addStock, hq]
        simp only [if_neg hq0, hfind]
        by_cases hnm : normParam p.item_name = ""
        · simp only [if_pos hnm]; exact h
        · simp only [if_neg hnm]
          by_cases hcat : normParam p.category = ""
          · simp only [if_pos hcat]; exact h
          · simp only [if_neg hcat]
            intro it2 hit2
            rw [List.mem_append] at hit2
            rcases hit2 with hit2 | hit2
            · exact h it2 hit2
            · rw [List.mem_singleton] at hit2
              subst hit2
              show (0 : ℤ) ≤ q
              omega

/-- `remove_stock` preserves non-negativity of all stock quantities. -/
theorem removeStock_nonneg (s : InvState) (p : RemoveParams) (now : ℚ)
    (mid : String) (h : NonNegInv s) :
    NonNegInv (removeStock s p now mid).2 := by
  by_cases hne : normParam p.item_id = ""
  · rw [removeStock, if_pos hne]; exact h
  · cases hq : p.quantity with
    | none => rw [removeStock_invalid_quantity s p now mid hne (Or.inl hq)]; exact h
    | some q =>
      by_cases hq0 : q ≤ 0
      · rw [removeStock_invalid_quantity s p now mid hne (Or.inr ⟨q, hq, hq0⟩)]
        exact h
      · have hpos : 0 < q := lt_of_not_le hq0
        cases hfind : s.inventory.find?
            (fun it => it.item_id == normParam p.item_id) with
        | none => rw [removeStock_unknown s p now mid q hne hq hpos hfind]; exact h
        | some ex =>
          by_cases hlt : ex.quantity < q
          · rw [removeStock_insufficient s p now mid ex q hne hq hpos hfind hlt]
            exact h
          · rw [removeStock_success s p now mid ex q hne hq hpos hfind hlt]
            intro it2 hit2
            obtain ⟨it, hit, rfl⟩ := List.mem_map.mp hit2
            by_cases hid : (it.item_id == normParam p.item_id) = true
            · simp only [hid, if_true]
              omega
            · simp only [hid, if_false]
              exact h it hit

/-- Every `add_stock`/`remove_stock` step preserves non-negativity. -/
theorem stepState_nonneg (seed : List (String × ℚ)) (s : InvState) (op : InvOp)
    (h : NonNegInv s) : NonNegInv (stepState seed s op) := by
  cases op with
  | add p now mid => exact addStock_nonneg seed s p now mid h
  | remove p now mid => exact removeStock_nonneg s p now mid h

/-- Every sequence of `add_stock`/`remove_stock` calls preserves
non-negativity. -/
theorem runOps_nonneg (seed : List (String × ℚ)) :
    ∀ (ops : List InvOp) (s : InvState), NonNegInv s →
      NonNegInv (runOps seed s ops)
  | [], _, h => h
  | op :: ops, s, h =>
    runOps_nonneg seed ops (stepState seed s op) (stepState_nonneg seed s op h)

/-- **C2**: starting from any state with all quantities non-negative, every
sequence of `addStock`/`removeStock` calls keeps every quantity non-negative;
a `removeStock` whose quantity exceeds the item's stock returns the
insufficient-stock error result and leaves the inventory table and the
movement ledger unchanged; and `addStock`/`removeStock` with quantity
missing or non-positive are rejected without any state change. -/
theorem stock_never_negative (seed : List (String × ℚ)) (s : InvState)
    (hs : NonNegInv s) :
    (∀ ops : List InvOp, NonNegInv (runOps seed s ops))
    ∧ (∀ (p : RemoveParams) (now : ℚ) (mid : String) (ex : Item) (q : ℤ),
        normParam p.item_id ≠ "" → p.quantity = some q → 0 < q →
        s.inventory.find? (fun it => it.item_id == normParam p.item_id) =
          some ex →
        ex.quantity < q →
        removeStock s p now mid = (.error (insufficientMsg ex.quantity q), s))
    ∧ (∀ (p : AddParams) (now : ℚ) (mid : String),
        (p.quantity = none ∨ ∃ q, p.quantity = some q ∧ q ≤ 0) →
        addStock seed s p now mid = (.error quantityErrorMsg, s))
    ∧ (∀ (p : RemoveParams) (now : ℚ) (mid : String),
        normParam p.item_id ≠ "" →
        (p.quantity = none ∨ ∃ q, p.quantity = some q ∧ q ≤ 0) →
        removeStock s p now mid = (.error quantityErrorMsg, s)) := by
  refine ⟨fun ops => runOps_nonneg seed ops s hs, ?_, ?_, ?_⟩
  · intro p now mid ex q hne hq hpos hfind hlt
    exact removeStock_insufficient s p now mid ex q hne hq hpos hfind hlt
  · intro p now mid h
    exact addStock_invalid_quantity seed s p now mid h
  · intro p now mid hne h
    exact removeStock_invalid_quantity s p now mid hne h

/-- Witness for the stock invariant: from a one-item state with 5 units,
an over-large removal of 99 is rejected with the insufficient-stock error
and unchanged state, and any sequence of calls keeps quantities
non-negative. -/
theorem stock_never_negative_witness :
    NonNegInv (runOps []
      { inventory := [{ item_id := "INV001", item_name := "item1"
                        category := "cat1", quantity := 5, min_stock_level := 5
                        reorder_point := 10, stocked_at := 0, expires_at := 24 }]
        movements := [] }
      [.remove { item_id := some "INV001", quantity := some 2, reason := none }
        1 "MOV1"])
    ∧ removeStock
        { inventory := [{ item_id := "INV001", item_name := "item1"
                          category := "cat1", quantity := 5, min_stock_level := 5
                          reorder_point := 10, stocked_at := 0, expires_at := 24 }]
          movements := [] }
        { item_id := some "INV001", quantity := some 99, reason := none } 1 "MOV2" =
      (.error (insufficientMsg 5 99),
       { inventory := [{ item_id := "INV001", item_name := "item1"
                         category := "cat1", quantity := 5, min_stock_level := 5
                         reorder_point := 10, stocked_at := 0, expires_at := 24 }]
         movements := [] }) := by
  have h := stock_never_negative []
    { inventory := [{ item_id := "INV001", item_name := "item1"
                      category := "cat1", quantity := 5, min_stock_level := 5
                      reorder_point := 10, stocked_at := 0, expires_at := 24 }]
      movements := [] } (by unfold NonNegInv; decide)
  refine ⟨h.1 _, ?_⟩
  exact h.2.1 { item_id := some "INV001", quantity := some 99, reason := none }
    1 "MOV2"
    { item_id := "INV001", item_name := "item1", category := "cat1"
      quantity := 5, min_stock_level := 5, reorder_point := 10
      stocked_at := 0, expires_at := 24 } 99
    (by decide) rfl (by decide) (by decide) (by decide)

/-- **C3**: every operation of the inventory tool and the optimizer returns a
data-shaped result instead of raising: a model-load or store failure makes
the whole `optimize` call return the single top-level error result with no
partial recommendations; validation errors, unknown-item errors and
insufficient-stock errors of the inventory tool are returned as error dicts
with the state unchanged; and every `optimize` call yields exactly one
outcome, a success payload or an error payload. -/
theorem error_boundary (seed : List (String × ℚ)) (s : InvState) :
    (∀ (ssdInput : Option ℚ) (e : String)
        (invR : Except String (List (String × List InvItemRow))),
        optimizeInvoke ssdInput (.error e) invR = .failure e)
    ∧ (∀ (ssdInput : Option ℚ) (pw : List Pred × Option String) (e : String),
        optimizeInvoke ssdInput (.ok pw) (.error e) = .failure e)
    ∧ (∀ (ssdInput : Option ℚ) predR invR,
        (∃ r, optimizeInvoke ssdInput predR invR = .success r) ∨
          (∃ e, optimizeInvoke ssdInput predR invR = .failure e))
    ∧ (∀ (p : AddParams) (now : ℚ) (mid : String),
        (p.quantity = none ∨ ∃ q, p.quantity = some q ∧ q ≤ 0) →
        addStock seed s p now mid = (.error quantityErrorMsg, s))
    ∧ (∀ (p : RemoveParams) (now : ℚ) (mid : String) (q : ℤ),
        normParam p.item_id ≠ "" → p.quantity = some q → 0 < q →
        s.inventory.find? (fun it => it.item_id == normParam p.item_id) =
          none →
        removeStock s p now mid =
          (.error ("商品が見つかりません: " ++ normParam p.item_id), s))
    ∧ (∀ (p : RemoveParams) (now : ℚ) (mid : String) (ex : Item) (q : ℤ),
        normParam p.item_id ≠ "" → p.quantity = some q → 0 < q →
        s.inventory.find? (fun it => it.item_id == normParam p.item_id) =
          some ex →
        ex.quantity < q →
        removeStock s p now mid =
          (.error (insufficientMsg ex.quantity q), s)) := by
  refine ⟨fun _ _ _ => rfl, fun _ _ _ => rfl, ?_, ?_, ?_, ?_⟩
  · intro ssdInput predR invR
    cases predR with
    | error e => exact Or.inr ⟨e, rfl⟩
    | ok pw =>
      cases invR with
      | error e => exact Or.inr ⟨e, rfl⟩
      | ok inv => exact Or.inl ⟨_, rfl⟩
  · intro p now mid h
    exact addStock_invalid_quantity seed s p now mid h
  · intro p now mid q hne hq hpos hfind
    exact removeStock_unknown s p now mid q hne hq hpos hfind
  · intro p now mid ex q hne hq hpos hfind hlt
    exact removeStock_insufficient s p now mid ex q hne hq hpos hfind hlt

/-- Witness for the error boundary: a failed model load surfaces as the
single error outcome of `optimize`, and an unknown item id surfaces as the
not-found error dict of the inventory tool with its state unchanged. -/
theorem error_boundary_witness :
    optimizeInvoke (some 1) (.error "model load failed") (.ok []) =
      .failure "model load failed"
    ∧ removeStock { inventory := [], movements := [] }
        { item_id := some "INV999", quantity := some 1, reason := none } 1 "MOV1" =
      (.error ("商品が見つかりません: " ++ normParam (some "INV999")),
       { inventory := [], movements := [] }) := by
  have h := error_boundary [] { inventory := [], movements := [] }
  refine ⟨h.1 (some 1) "model load failed" (.ok []), ?_⟩
  exact h.2.2.2.2.1 { item_id := some "INV999", quantity := some 1, reason := none }
    1 "MOV1" 1 (by decide) rfl (by decide) rfl

/-- **C4**: every successful `addStock` call (incrementing an existing item or
creating a new one) and every successful `removeStock` call appends exactly
one new row to the movement ledger, whose `quantity` equals the operation's
delta (the reported added or removed amount), while a failed call appends no
row. -/
theorem movement_ledger (seed : List (String × ℚ)) (s : InvState)
    (p : AddParams) (pr : RemoveParams) (now : ℚ) (mid : String) :
    (∀ (r : AddOk) (s2 : InvState), addStock seed s p now mid = (.ok r, s2) →
      ∃ mv : Movement, s2.movements = s.movements ++ [mv] ∧
        mv.quantity = r.delta ∧ mv.movement_id = mid)
    ∧ (∀ (e : String) (s2 : InvState),
        addStock seed s p now mid = (.error e, s2) →
        s2.movements = s.movements)
    ∧ (∀ (r : RemoveOk) (s2 : InvState),
        removeStock s pr now mid = (.ok r, s2) →
      ∃ mv : Movement, s2.movements = s.movements ++ [mv] ∧
        mv.quantity = r.removed_quantity ∧ mv.movement_id = mid)
    ∧ (∀ (e : String) (s2 : InvState),
        removeStock s pr now mid = (.error e, s2) →
        s2.movements = s.movements) := by
  refine ⟨?_, ?_, ?_, ?_⟩
  · intro r s2 h
    cases hq : p.quantity with
    | none =>
      rw [addStock_invalid_quantity seed s p now mid (Or.inl hq)] at h
      simp at h
    | some q =>
      by_cases hq0 : q ≤ 0
      · rw [addStock_invalid_quantity seed s p now mid (Or.inr ⟨q, hq, hq0⟩)] at h
        simp at h
      · have hpos := lt_of_not_le hq0
        cases hfind : s.inventory.find?
            (fun it => it.item_id == normParam p.item_id) with
        | some ex =>
          rw [addStock_existing seed s p now mid ex q hq hpos hfind,
            Prod.mk.injEq, Except.ok.injEq] at h
          obtain ⟨h1, h2⟩ := h
          subst h1
          subst h2
          exact ⟨_, rfl, rfl, rfl⟩
        | none =>
          by_cases hnm : normParam p.item_name = ""
          · rw [addStock_missing_name seed s p now mid q hq hpos hfind hnm] at h
            simp at h
          · by_cases hcat : normParam p.category = ""
            · rw [addStock_missing_category seed s p now mid q hq hpos hfind
                hnm hcat] at h
              simp at h
            · rw [addStock_created seed s p now mid q hq hpos hfind hnm hcat] at h
              simp only [Prod.mk.injEq, Except.ok.injEq] at h
              obtain ⟨h1, h2⟩ := h
              subst h1
              subst h2
              exact ⟨_, rfl, rfl, rfl⟩
  · intro e s2 h
    cases hq : p.quantity with
    | none =>
      rw [addStock_invalid_quantity seed s p now mid (Or.inl hq),
        Prod.mk.injEq] at h
      rw [← h.2]
    | some q =>
      by_cases hq0 : q ≤ 0
      · rw [addStock_invalid_quantity seed s p now mid (Or.inr ⟨q, hq, hq0⟩),
          Prod.mk.injEq] at h
        rw [← h.2]
      · have hpos := lt_of_not_le hq0
        cases hfind : s.inventory.find?
            (fun it => it.item_id == normParam p.item_id) with
        | some ex =>
          rw [addStock_existing seed s p now mid ex q hq hpos hfind] at h
          simp at h
        | none =>
          by_cases hnm : normParam p.item_name = ""
          · rw [addStock_missing_name seed s p now mid q hq hpos hfind hnm,
              Prod.mk.injEq] at h
            rw [← h.2]
          · by_cases hcat : normParam p.category = ""
            · rw [addStock_missing_category seed s p now mid q hq hpos hfind
                hnm hcat, Prod.mk.injEq] at h
              rw [← h.2]
            · rw [addStock_created seed s p now mid q hq hpos hfind hnm hcat] at h
              simp at h
  · intro r s2 h
    by_cases hne : normParam pr.item_id = ""
    · rw [removeStock, if_pos hne] at h
      simp at h
    · cases hq : pr.quantity with
      | none =>
        rw [removeStock_invalid_quantity s pr now mid hne (Or.inl hq)] at h
        simp at h
      | some q =>
        by_cases hq0 : q ≤ 0
        · rw [removeStock_invalid_quantity s pr now mid hne
            (Or.inr ⟨q, hq, hq0⟩)] at h
          simp at h
        · have hpos := lt_of_not_le hq0
          cases hfind : s.inventory.find?
              (fun it => it.item_id == normParam pr.item_id) with
          | none =>
            rw [removeStock_unknown s pr now mid q hne hq hpos hfind] at h
            simp at h
          | some ex =>
            by_cases hlt : ex.quantity < q
            · rw [removeStock_insufficient s pr now mid ex q hne hq hpos hfind
                hlt] at h
              simp at h
            · rw [removeStock_success s pr now mid ex q hne hq hpos hfind hlt,
                Prod.mk.injEq, Except.ok.injEq] at h
              obtain ⟨h1, h2⟩ := h
              subst h1
              subst h2
              exact ⟨_, rfl, rfl, rfl⟩
  · intro e s2 h
    by_cases hne : normParam pr.item_id = ""
    · rw [removeStock, if_pos hne, Prod.mk.injEq] at h
      rw [← h.2]
    · cases hq : pr.quantity with
      | none =>
        rw [removeStock_invalid_quantity s pr now mid hne (Or.inl hq),
          Prod.mk.injEq] at h
        rw [← h.2]
      | some q =>
        by_cases hq0 : q ≤ 0
        · rw [removeStock_invalid_quantity s pr now mid hne
            (Or.inr ⟨q, hq, hq0⟩), Prod.mk.injEq] at h
          rw [← h.2]
        · have hpos := lt_of_not_le hq0
          cases hfind : s.inventory.find?
              (fun it => it.item_id == normParam pr.item_id) with
          | none =>
            rw [removeStock_unknown s pr now mid q hne hq hpos hfind,
              Prod.mk.injEq] at h
            rw [← h.2]
          | some ex =>
            by_cases hlt : ex.quantity < q
            · rw [removeStock_insufficient s pr now mid ex q hne hq hpos hfind
                hlt, Prod.mk.injEq] at h
              rw [← h.2]
            · rw [removeStock_success s pr now mid ex q hne hq hpos hfind
                hlt] at h
              simp at h

/-- Witness for the ledger theorem: restocking 3 units of the one-item demo
state appends exactly the expected movement row carrying quantity 3. -/
theorem movement_ledger_witness :
    ∃ mv : Movement,
      (addStock []
        { inventory := [{ item_id := "INV001", item_name := "item1"
                          category := "cat1", quantity := 5, min_stock_level := 5
                          reorder_point := 10, stocked_at := 0, expires_at := 24 }]
          movements := [] }
        { item_id := some "INV001", item_name := none, category := none
          quantity := some 3, expires_in_hours := none } 1 "MOV1").2.movements =
        ([] : List Movement) ++ [mv] ∧
      mv.quantity = (AddOk.existing "INV001" "item1" 5 3 8 "MOV1").delta ∧
      mv.movement_id = "MOV1" := by
  have h := (movement_ledger []
    { inventory := [{ item_id := "INV001", item_name := "item1"
                      category := "cat1", quantity := 5, min_stock_level := 5
                      reorder_point := 10, stocked_at := 0, expires_at := 24 }]
      movements := [] }
    { item_id := some "INV001", item_name := none, category := none
      quantity := some 3, expires_in_hours := none }
    { item_id := none, quantity := none, reason := none } 1 "MOV1").1
    (AddOk.existing "INV001" "item1" 5 3 8 "MOV1")
    (addStock []
      { inventory := [{ item_id := "INV001", item_name := "item1"
                        category := "cat1", quantity := 5, min_stock_level := 5
                        reorder_point := 10, stocked_at := 0, expires_at := 24 }]
        movements := [] }
      { item_id := some "INV001", item_name := none, category := none
        quantity := some 3, expires_in_hours := none } 1 "MOV1").2 ?heq
  · exact h
  · rw [addStock_existing _ _ _ _ _
      { item_id := "INV001", item_name := "item1", category := "cat1"
        quantity := 5, min_stock_level := 5, reorder_point := 10
        stocked_at := 0, expires_at := 24 } 3 rfl (by decide) (by decide)]
    rfl

/-- **C10**: when `addStock` is called with an item id that already exists,
only that item's quantity changes (to `previous + added`); the item names,
categories, minimum stock levels, reorder points, stocking times and expiry
times of every row are left unchanged — restocking does not extend expiry —
and any `item_name`, `category` or `expires_in_hours` parameters supplied
with the call are ignored. -/
theorem restock_frame (seed : List (String × ℚ)) (s : InvState) (p : AddParams)
    (now : ℚ) (mid : String) (ex : Item) (q : ℤ)
    (hq : p.quantity = some q) (hpos : 0 < q)
    (hfind : s.inventory.find? (fun it => it.item_id == normParam p.item_id) =
      some ex) :
    ((addStock seed s p now mid).2.inventory.map (fun it => it.item_name) =
        s.inventory.map (fun it => it.item_name))
    ∧ ((addStock seed s p now mid).2.inventory.map (fun it => it.category) =
        s.inventory.map (fun it => it.category))
    ∧ ((addStock seed s p now mid).2.inventory.map (fun it => it.min_stock_level) =
        s.inventory.map (fun it => it.min_stock_level))
    ∧ ((addStock seed s p now mid).2.inventory.map (fun it => it.reorder_point) =
        s.inventory.map (fun it => it.reorder_point))
    ∧ ((addStock seed s p now mid).2.inventory.map (fun it => it.stocked_at) =
        s.inventory.map (fun it => it.stocked_at))
    ∧ ((addStock seed s p now mid).2.inventory.map (fun it => it.expires_at) =
        s.inventory.map (fun it => it.expires_at))
    ∧ ((addStock seed s p now mid).2.inventory.map (fun it => it.quantity) =
        s.inventory.map (fun it =>
          if it.item_id == normParam p.item_id then ex.quantity + q
          else it.quantity))
    ∧ (∀ (nm cat : Option String) (eh : Option ℚ),
        addStock seed s
          { p with item_name := nm, category := cat, expires_in_hours := eh }
          now mid =
        addStock seed s p now mid) := by
  have hstep := addStock_existing seed s p now mid ex q hq hpos hfind
  have hinv : (addStock seed s p now mid).2.inventory =
      s.inventory.map (fun it =>
        if it.item_id == normParam p.item_id then
          { it with quantity := ex.quantity + q }
        else it) := by
    rw [hstep]
  refine ⟨?_, ?_, ?_, ?_, ?_, ?_, ?_, ?_⟩
  · rw [hinv, List.map_map]
    refine List.map_congr_left (fun it _ => ?_)
    by_cases hid : (it.item_id == normParam p.item_id) = true <;>
      simp [hid, Function.comp]
  · rw [hinv, List.map_map]
    refine List.map_congr_left (fun it _ => ?_)
    by_cases hid : (it.item_id == normParam p.item_id) = true <;>
      simp [hid, Function.comp]
  · rw [hinv, List.map_map]
    refine List.map_congr_left (fun it _ => ?_)
    by_cases hid : (it.item_id == normParam p.item_id) = true <;>
      simp [hid, Function.comp]
  · rw [hinv, List.map_map]
    refine List.map_congr_left (fun it _ => ?_)
    by_cases hid : (it.item_id == normParam p.item_id) = true <;>
      simp [hid, Function.comp]
  · rw [hinv, List.map_map]
    refine List.map_congr_left (fun it _ => ?_)
    by_cases hid : (it.item_id == normParam p.item_id) = true <;>
      simp [hid, Function.comp]
  · rw [hinv, List.map_map]
    refine List.map_congr_left (fun it _ => ?_)
    by_cases hid : (it.item_id == normParam p.item_id) = true <;>
      simp [hid, Function.comp]
  · rw [hinv, List.map_map]
    refine List.map_congr_left (fun it _ => ?_)
    by_cases hid : (it.item_id == normParam p.item_id) = true <;>
      simp [hid, Function.comp]
  · intro nm cat eh
    rw [hstep,
      addStock_existing seed s
        { p with item_name := nm, category := cat, expires_in_hours := eh }
        now mid ex q hq hpos hfind]

/-- Witness for the restock frame: restocking 3 units of the existing demo
item leaves its expiry projection unchanged and raises only its quantity. -/
theorem restock_frame_witness :
    ((addStock []
      { inventory := [{ item_id := "INV001", item_name := "item1"
                        category := "cat1", quantity := 5, min_stock_level := 5
                        reorder_point := 10, stocked_at := 0, expires_at := 24 }]
        movements := [] }
      { item_id := some "INV001", item_name := some "other"
        category := some "other", quantity := some 3
        expires_in_hours := some 99 } 1 "MOV1").2.inventory.map
        (fun it => it.expires_at) = [(24 : ℚ)])
    ∧ ((addStock []
      { inventory := [{ item_id := "INV001", item_name := "item1"
                        category := "cat1", quantity := 5, min_stock_level := 5
                        reorder_point := 10, stocked_at := 0, expires_at := 24 }]
        movements := [] }
      { item_id := some "INV001", item_name := some "other"
        category := some "other", quantity := some 3
        expires_in_hours := some 99 } 1 "MOV1").2.inventory.map
        (fun it => it.quantity) = [(8 : ℤ)]) := by
  have h := restock_frame []
    { inventory := [{ item_id := "INV001", item_name := "item1"
                      category := "cat1", quantity := 5, min_stock_level := 5
                      reorder_point := 10, stocked_at := 0, expires_at := 24 }]
      movements := [] }
    { item_id := some "INV001", item_name := some "other"
      category := some "other", quantity := some 3, expires_in_hours := some 99 }
    1 "MOV1"
    { item_id := "INV001", item_name := "item1", category := "cat1"
      quantity := 5, min_stock_level := 5, reorder_point := 10
      stocked_at := 0, expires_at := 24 } 3 rfl (by decide) (by decide)
  constructor
  · rw [h.2.2.2.2.2.1]
    rfl
  · rw [h.2.2.2.2.2.2.1]
    rfl

end Karaage
